import Mathlib

/-!
Verification development for the `OpenStreetMap` Leaflet-wrapper class.

The class is shallowly embedded as a pure state machine:

* `MapState` captures the wrapper's private fields (`#map`, `#selectorMarker`,
  `#selectedCoords`, `#isSelectorEnabled`, `#onSelectCallback`, `#routeLayers`,
  `#markers`, `#circles`) together with an abstract model of the Leaflet
  rendering surface: the layers currently attached to the map, each an opaque
  handle (a `Nat` id drawn from a fresh-id counter) tagged with its kind.
* JavaScript numbers are idealized as rationals plus an explicit `nan` value,
  so that JS truthiness (`0`, `NaN` and `undefined` are falsy) is modelled
  exactly.  `undefined`/omitted arguments are `Option.none`.
* The Leaflet engine itself (tile fetch, geometry rendering, popup display,
  bounding-box computation) is out of scope per the spec; the embedding
  records which add/remove-layer and view-change commands are issued to it.
* The one asynchronous dependency, the OSRM routing service, is modelled as
  an explicit outcome parameter of `drawRoute` (the parsed response, a body
  without a `routes` array, or a thrown network/JSON error).
-/

namespace OSM

/-- A JavaScript number value: a finite numeric value (idealized as a
rational, which is exact on every input exercised here) or `NaN`.
An `undefined`/omitted argument is represented as `Option.none` outside
this type. -/
inductive JSNum where
  | num (q : ℚ)
  | nan
deriving DecidableEq

/-- JS truthiness of a number: `0` and `NaN` are falsy. -/
def JSNum.truthy : JSNum → Bool
  | .num q => q != 0
  | .nan => false

/-- JS truthiness of a possibly-`undefined` number. -/
def jsTruthy : Option JSNum → Bool
  | some v => v.truthy
  | none => false

/-- The kinds of Leaflet layers the wrapper creates. -/
inductive LKind where
  | tile
  | marker
  | circle
  | polyline
deriving DecidableEq

/-- One entry of `#routeLayers`: `{ polyline, originMarker, destinationMarker }`. -/
structure RouteLayerEntry where
  polyline : Nat
  originMarker : Option Nat
  destinationMarker : Option Nat
deriving DecidableEq

/-- The state of one `OpenStreetMap` instance plus the abstract rendering
surface.  `surface` lists the layers currently attached to the Leaflet map
(in attachment order); `nextId` is the fresh-handle counter; `viewChanges`
counts the `setView`/`fitBounds` commands issued to the engine;
`callbackLog` records each invocation of the registered `onSelect` callback
with the coordinates it received; `alerts` counts blocking user notices. -/
structure MapState where
  configLat : ℚ
  configLng : ℚ
  configZoom : ℚ
  configContainerId : String
  selectorIcon : String
  mapInit : Bool
  viewCenter : ℚ × ℚ
  viewZoom : ℚ
  viewChanges : Nat
  surface : List (Nat × LKind)
  nextId : Nat
  selectorMarker : Option Nat
  selectedCoords : Option (ℚ × ℚ)
  isSelectorEnabled : Bool
  onSelectRegistered : Bool
  callbackLog : List (ℚ × ℚ)
  alerts : Nat
  routeLayers : List RouteLayerEntry
  markers : List Nat
  circles : List Nat
deriving DecidableEq

/-- `new OpenStreetMap(options)`: the constructor merges the caller's options
over `OpenStreetMap.DEFAULTS` into `this.config`; everything else starts
null/empty.  The merged configuration values are the parameters here. -/
def mkSession (lat lng zoom : ℚ) (containerId selectorIcon : String) : MapState where
  configLat := lat
  configLng := lng
  configZoom := zoom
  configContainerId := containerId
  selectorIcon := selectorIcon
  mapInit := false
  viewCenter := (0, 0)
  viewZoom := 0
  viewChanges := 0
  surface := []
  nextId := 0
  selectorMarker := none
  selectedCoords := none
  isSelectorEnabled := false
  onSelectRegistered := false
  callbackLog := []
  alerts := 0
  routeLayers := []
  markers := []
  circles := []

/-- A session built from `OpenStreetMap.DEFAULTS`
(`lat: 8.240773, lng: -65.546409, zoom: 7, containerId: 'map'`; the
selector-icon emoji is abstracted to a plain string). -/
def defaultSession : MapState :=
  mkSession (8240773/1000000) (-65546409/1000000) 7 "map" "selector-icon"

/-- `this.#map.removeLayer(m)`: detaches the layer with handle `m` from the
rendering surface; a no-op when the layer is not attached (as in Leaflet). -/
def removeLayer (surf : List (Nat × LKind)) (m : Nat) : List (Nat × LKind) :=
  surf.filter (fun l => l.1 != m)

/-- `this.#requireMap()`: true iff `this.#map !== null`. -/
def requireMap (s : MapState) : Bool := s.mapInit

/-- `this.#requireSelector()`: `#requireMap()` and `#isSelectorEnabled`. -/
def requireSelector (s : MapState) : Bool := s.mapInit && s.isSelectorEnabled

/-- `parseFloat(v)` on a number-or-`undefined` argument: `parseFloat` of a
number is the number itself and `parseFloat(undefined)` is `NaN`.
(String arguments are modelled by their parse result, i.e. already a `JSNum`.) -/
def parseFloatJS : Option JSNum → JSNum
  | none => .nan
  | some v => v

/-- Truncation toward zero on rationals. -/
def ratTrunc (q : ℚ) : ℤ :=
  if 0 ≤ q then ⌊q⌋ else ⌈q⌉

/-- `parseInt(v)` on a number-or-`undefined` argument: `parseInt` of a number
of ordinary magnitude is its truncation toward zero (it parses the integer
prefix of the decimal representation), and `parseInt(undefined)` is `NaN`. -/
def parseIntJS : Option JSNum → JSNum
  | none => .nan
  | some .nan => .nan
  | some (.num q) => .num (ratTrunc q : ℤ)

/-- The JS `v || fallback` idiom applied to a parsed number: keeps `v` when
it is truthy (nonzero, not `NaN`), otherwise yields the fallback. -/
def jsOr (v : JSNum) (fallback : ℚ) : ℚ :=
  match v with
  | .num q => if q = 0 then fallback else q
  | .nan => fallback

/-- `initMap({ lat, lng, containerId, zoom })`: resolves each parameter with
`parseFloat(x) || this.config.x` (resp. `parseInt` for zoom, `||` for the
container id, where an empty string is also falsy), writes the resolved
`lat`/`lng`/`zoom` back into `this.config`, creates the Leaflet map with
`setView([lat, lng], zoom)` (one view change) and attaches the tile layer.
Returns `this`. -/
def initMap (s : MapState) (lat lng zoom : Option JSNum) (containerId : Option String) :
    MapState :=
  let la := jsOr (parseFloatJS lat) s.configLat
  let lg := jsOr (parseFloatJS lng) s.configLng
  let _cid := match containerId with
    | some c => if c = "" then s.configContainerId else c
    | none => s.configContainerId
  let z := jsOr (parseIntJS zoom) s.configZoom
  { s with
    configLat := la
    configLng := lg
    configZoom := z
    configContainerId := _cid
    mapInit := true
    viewCenter := (la, lg)
    viewZoom := z
    viewChanges := s.viewChanges + 1
    surface := s.surface ++ [(s.nextId, .tile)]
    nextId := s.nextId + 1 }

/-- `setupSearch(options)`: guarded by `#requireMap`; attaches the geocoder
UI control (not a map layer — out of scope) and returns `this`.  No tracked
state changes either way. -/
def setupSearch (s : MapState) : MapState :=
  s

/-- `OpenStreetMap.LINKS.googleMaps(lat, lng)`. -/
def googleMapsLink (lat lng : ℚ) : String :=
  "https://www.google.com/maps?q=" ++ toString lat ++ "," ++ toString lng

/-- `OpenStreetMap.LINKS.openStreetMap(lat, lng)`. -/
def openStreetMapLink (lat lng : ℚ) : String :=
  "https://www.openstreetmap.org/?mlat=" ++ toString lat ++ "&mlon=" ++ toString lng
    ++ "&zoom=15"

/-- `#buildSelectorPopup(lat, lng)`: the popup HTML (markup abstracted to the
data it interpolates). -/
def buildSelectorPopup (lat lng : ℚ) : String :=
  "selector-popup " ++ toString lat ++ " " ++ toString lng ++ " "
    ++ googleMapsLink lat lng ++ " " ++ openStreetMapLink lat lng

/-- `addMarker(lat, lng, icon, popupContent)`: guarded by `#requireMap`
(returns null when uninitialized); defaults `lat`/`lng` with `??` to the
config center (so `0`/`NaN` are kept, only `undefined`/`null` fall back);
creates a div-icon marker layer on the map (geometry and popup are owned by
the engine), pushes it onto `this.#markers` and returns the handle. -/
def addMarker (s : MapState) (lat lng : Option JSNum) (icon : String)
    (popupContent : Option String) : Option Nat × MapState :=
  if !requireMap s then (none, s) else
  let _lat := lat.getD (.num s.configLat)
  let _lng := lng.getD (.num s.configLng)
  let _icon := icon
  let _popup := popupContent
  let m := s.nextId
  (some m,
   { s with
     surface := s.surface ++ [(m, .marker)]
     nextId := s.nextId + 1
     markers := s.markers ++ [m] })

/-- One element of the `addMarkers` input array. -/
structure MarkerSpec where
  lat : Option JSNum
  lng : Option JSNum
  icon : Option String
  popup : Option String

/-- The JS value `addMarkers` evaluates to: either an array of marker
handles (`return []` on the uninitialized path) or the instance itself
(`return this`). -/
inductive MarkersReturn where
  | arr (handles : List Nat)
  | self
deriving DecidableEq

/-- The `markers.map(... addMarker ...).filter(Boolean)` loop of `addMarkers`:
returns the successfully created handles and the final state. -/
def addMarkersLoop (s : MapState) : List MarkerSpec → List Nat × MapState
  | [] => ([], s)
  | spec :: rest =>
    let (h, s1) := addMarker s spec.lat spec.lng (spec.icon.getD "package") spec.popup
    let (hs, s2) := addMarkersLoop s1 rest
    (h.toList ++ hs, s2)

/-- `addMarkers(markers, { fitBounds })`: guarded by `#requireMap` (returns
`[]` when uninitialized); applies `addMarker` to each spec filtering out
failures; when `fitBounds` is true and at least one marker was created, asks
the engine to fit the group's bounds (one view change).  The source then
executes `return this;` even though its JSDoc declares
`@returns {Array}` of Leaflet markers. -/
def addMarkers (s : MapState) (specs : List MarkerSpec) (fitBounds : Bool) :
    MarkersReturn × MapState :=
  if !requireMap s then (.arr [], s) else
  let (created, s1) := addMarkersLoop s specs
  let s2 := if fitBounds && created.length > 0
            then { s1 with viewChanges := s1.viewChanges + 1 }
            else s1
  (.self, s2)

/-- `clearMarkers()`: guarded on `#map`; removes every layer tracked in
`this.#markers` from the surface and empties the list.  Returns `this`. -/
def clearMarkers (s : MapState) : MapState :=
  if !s.mapInit then s else
  { s with
    surface := s.markers.foldl removeLayer s.surface
    markers := [] }

/-- One element of the `addCircles` input array (style options are engine
pass-through and omitted). -/
structure CircleSpec where
  lat : JSNum
  lng : JSNum
  radius : ℚ
  popup : Option String

/-- `addCircle(lat, lng, radius, options)`: guarded by `#requireMap`
(returns null when uninitialized); creates a circle layer on the map
(geometry, style and popup owned by the engine), pushes it onto
`this.#circles` and returns the handle. -/
def addCircle (s : MapState) (lat lng : JSNum) (radius : ℚ)
    (popup : Option String) : Option Nat × MapState :=
  if !requireMap s then (none, s) else
  let _lat := lat
  let _lng := lng
  let _radius := radius
  let _popup := popup
  let c := s.nextId
  (some c,
   { s with
     surface := s.surface ++ [(c, .circle)]
     nextId := s.nextId + 1
     circles := s.circles ++ [c] })

/-- The `circles.map(... addCircle ...).filter(Boolean)` loop of `addCircles`. -/
def addCirclesLoop (s : MapState) : List CircleSpec → List Nat × MapState
  | [] => ([], s)
  | spec :: rest =>
    let (h, s1) := addCircle s spec.lat spec.lng spec.radius spec.popup
    let (hs, s2) := addCirclesLoop s1 rest
    (h.toList ++ hs, s2)

/-- `addCircles(circles, { fitBounds })`: guarded by `#requireMap` (returns
`this` when uninitialized); applies `addCircle` to each spec; when
`fitBounds` is true and at least one circle was created, fits the group's
bounds (one view change).  Returns `this`. -/
def addCircles (s : MapState) (specs : List CircleSpec) (fitBounds : Bool) :
    MapState :=
  if !requireMap s then s else
  let (created, s1) := addCirclesLoop s specs
  if fitBounds && created.length > 0
  then { s1 with viewChanges := s1.viewChanges + 1 }
  else s1

/-- `clearCircles()`: guarded on `#map`; removes every layer tracked in
`this.#circles` from the surface and empties the list.  Returns `this`. -/
def clearCircles (s : MapState) : MapState :=
  if !s.mapInit then s else
  { s with
    surface := s.circles.foldl removeLayer s.surface
    circles := [] }

/-- `setView(lat, lng, zoom)`: guarded by `#requireMap` (returns `this`);
re-centers the view via `setView([lat, lng], zoom || this.#map.getZoom())`
— so a zoom of `0` also falls back to the current zoom. -/
def setView (s : MapState) (lat lng : ℚ) (zoom : Option ℚ) : MapState :=
  if !requireMap s then s else
  let z := match zoom with
    | some z => if z = 0 then s.viewZoom else z
    | none => s.viewZoom
  { s with
    viewCenter := (lat, lng)
    viewZoom := z
    viewChanges := s.viewChanges + 1 }

/-- `clearSelector()`: returns immediately unless `#map` and
`#selectorMarker` both exist; otherwise removes the selector marker layer
and nulls `#selectorMarker` and `#selectedCoords`. -/
def clearSelector (s : MapState) : MapState :=
  if !s.mapInit then s else
  match s.selectorMarker with
  | none => s
  | some m =>
    { s with
      surface := removeLayer s.surface m
      selectorMarker := none
      selectedCoords := none }

/-- `placeSelector(lat, lng, icon)`: guarded by `#requireSelector`
(silent no-op otherwise); defaults the icon with `??` to
`config.selectorIcon`; calls `clearSelector()`, stores the new
`#selectedCoords`, and creates the selector marker through `addMarker`
with the selector popup, storing the handle in `#selectorMarker`. -/
def placeSelector (s : MapState) (lat lng : ℚ) (icon : Option String) : MapState :=
  if !requireSelector s then s else
  let ic := icon.getD s.selectorIcon
  let s1 := clearSelector s
  let s2 := { s1 with selectedCoords := some (lat, lng) }
  let popup := buildSelectorPopup lat lng
  let (m, s3) := addMarker s2 (some (.num lat)) (some (.num lng)) ic (some popup)
  { s3 with selectorMarker := m }

/-- `setupSelector(onSelect)`: guarded by `#requireMap` (returns `this`);
enables the selector, registers the callback, attaches the click listeners,
and — since the map is already initialized, `whenReady` fires immediately —
places the default selector marker at the config center.  Returns `this`. -/
def setupSelector (s : MapState) : MapState :=
  if !requireMap s then s else
  let s1 := { s with isSelectorEnabled := true, onSelectRegistered := true }
  placeSelector s1 s1.configLat s1.configLng none

/-- The object returned by `getSelectedCoordinates`. -/
structure SelectedPoint where
  lat : ℚ
  lng : ℚ
  timestamp : String
  formatted : String
  googleMapsUrl : String
  openStreetMapUrl : String
deriving DecidableEq

/-- `getSelectedCoordinates()`: null when `#selectedCoords` is null;
otherwise derives the result at read time — `parseFloat` of the stored
coordinates (the identity on numbers), the current clock reading `now`
(`new Date().toISOString()`), the formatted string and the two deep links. -/
def getSelectedCoordinates (s : MapState) (now : String) : Option SelectedPoint :=
  match s.selectedCoords with
  | none => none
  | some (lat, lng) =>
    some
      { lat := lat
        lng := lng
        timestamp := now
        formatted := toString lat ++ ", " ++ toString lng
        googleMapsUrl := googleMapsLink lat lng
        openStreetMapUrl := openStreetMapLink lat lng }

/-- `confirmSelection()`: reads `getSelectedCoordinates()`; when null,
shows a blocking alert and returns null; otherwise invokes the registered
callback (`this.#onSelectCallback?.(coords)`) with the coordinates and
returns them.  The stored selection is not modified. -/
def confirmSelection (s : MapState) (now : String) :
    Option SelectedPoint × MapState :=
  match getSelectedCoordinates s now with
  | none => (none, { s with alerts := s.alerts + 1 })
  | some coords =>
    let s1 := if s.onSelectRegistered
              then { s with callbackLog := s.callbackLog ++ [(coords.lat, coords.lng)] }
              else s
    (some coords, s1)

/-- `Math.atan2(y, x)`, the standard two-argument arctangent, over the
idealized reals. -/
noncomputable def atan2 (y x : ℝ) : ℝ :=
  if 0 < x then Real.arctan (y / x)
  else if x < 0 ∧ 0 ≤ y then Real.arctan (y / x) + Real.pi
  else if x < 0 ∧ y < 0 then Real.arctan (y / x) - Real.pi
  else if x = 0 ∧ 0 < y then Real.pi / 2
  else if x = 0 ∧ y < 0 then -(Real.pi / 2)
  else 0

/-- `OpenStreetMap.#haversineDistance(lat1, lng1, lat2, lng2)`: great-circle
distance in meters with Earth radius 6 371 000 m.  IEEE-754 doubles are
idealized as reals; the function is a pure, deterministic function of its
arguments. -/
noncomputable def haversineDistance (lat1 lng1 lat2 lng2 : ℝ) : ℝ :=
  let R : ℝ := 6371000
  let toRad : ℝ → ℝ := fun deg => deg * Real.pi / 180
  let dLat := toRad (lat2 - lat1)
  let dLng := toRad (lng2 - lng1)
  let a := Real.sin (dLat / 2) ^ 2
    + Real.cos (toRad lat1) * Real.cos (toRad lat2) * Real.sin (dLng / 2) ^ 2
  R * 2 * atan2 (Real.sqrt a) (Real.sqrt (1 - a))

/-- The route kind reported in the result's `type` field. -/
inductive RouteType where
  | straight
  | road
deriving DecidableEq

/-- The metadata part of a route build (`distanceKm`/`durationMin` are
string renderings of `distance`/`duration` and carry no extra information,
so they are not duplicated here). -/
structure RouteData where
  distance : ℝ
  duration : Option ℚ
  type : RouteType

/-- The value resolved by `drawRoute`: the metadata plus the endpoint-marker
handles and the polyline handle. -/
structure RouteResult where
  distance : ℝ
  duration : Option ℚ
  type : RouteType
  originMarker : Option Nat
  destinationMarker : Option Nat
  polyline : Nat

/-- One element of the OSRM response's `routes` array. -/
structure OsrmRoute where
  distance : ℚ
  duration : ℚ
  geometry : List (ℚ × ℚ)
deriving DecidableEq

/-- The outcome of the OSRM request made by `#fetchRoadRoute`: a parsed
body carrying a `routes` array, a body without one (malformed response),
or a thrown network/JSON error. -/
inductive OsrmOutcome where
  | ok (routes : List OsrmRoute)
  | missingRoutes
  | netError
deriving DecidableEq

/-- `#buildStraightRoute(origin, destination, lineStyle)`: draws the
two-point polyline between the parsed endpoint coordinates (dashed by
default — style is engine-owned) and computes the Haversine distance;
`duration` is null and `type` is `'straight'`. -/
noncomputable def buildStraightRoute (s : MapState) (olat olng dlat dlng : ℚ) :
    (RouteData × Nat) × MapState :=
  let p := s.nextId
  (({ distance := haversineDistance (olat : ℝ) (olng : ℝ) (dlat : ℝ) (dlng : ℝ)
      duration := none
      type := .straight }, p),
   { s with
     surface := s.surface ++ [(p, .polyline)]
     nextId := s.nextId + 1 })

/-- `#fetchRoadRoute(origin, destination, lineStyle)`: null on a thrown
error, on a body without a `routes` array, or on an empty `routes` array;
otherwise draws the polyline of `routes[0].geometry` and reports the
service-provided distance/duration with `type: 'road'`. -/
noncomputable def fetchRoadRoute (s : MapState) (outcome : OsrmOutcome) :
    Option (RouteData × Nat) × MapState :=
  match outcome with
  | .netError => (none, s)
  | .missingRoutes => (none, s)
  | .ok [] => (none, s)
  | .ok (route :: _) =>
    let p := s.nextId
    (some ({ distance := (route.distance : ℝ)
             duration := some route.duration
             type := .road }, p),
     { s with
       surface := s.surface ++ [(p, .polyline)]
       nextId := s.nextId + 1 })

/-- The `origin`/`destination` argument of `drawRoute`. -/
structure Endpoint where
  lat : Option JSNum
  lng : Option JSNum
  icon : Option String
  popup : Option String

/-- The `routeOptions` argument of `drawRoute` (path color, weight and
opacity are engine pass-through style and omitted; `dashArray` only feeds
that style too and is likewise omitted). -/
structure RouteOptions where
  useRoadRoute : Bool := false
  fitBounds : Bool := true

/-- `drawRoute(origin, destination, routeOptions)`: null when the session is
uninitialized, and null when `!origin?.lat || !origin?.lng ||
!destination?.lat || !destination?.lng` — JS truthiness, so `undefined`,
`NaN` and `0` coordinates all fail the precondition.  Otherwise it always
places the two endpoint markers through `addMarker`, builds the route (road
mode falls back to the straight builder when the OSRM fetch yields null),
pushes `{ polyline, originMarker, destinationMarker }` onto
`this.#routeLayers`, fits the view to the polyline bounds when `fitBounds`,
and resolves to the metadata plus markers and polyline. -/
noncomputable def drawRoute (s : MapState) (origin destination : Endpoint)
    (opts : RouteOptions) (outcome : OsrmOutcome) :
    Option RouteResult × MapState :=
  if !requireMap s then (none, s) else
  match origin.lat, origin.lng, destination.lat, destination.lng with
  | some (.num olat), some (.num olng), some (.num dlat), some (.num dlng) =>
    if olat = 0 || olng = 0 || dlat = 0 || dlng = 0 then (none, s) else
    let (om, s1) := addMarker s origin.lat origin.lng
      (origin.icon.getD "home") origin.popup
    let (dm, s2) := addMarker s1 destination.lat destination.lng
      (destination.icon.getD "package") destination.popup
    let (res, s3) :=
      if opts.useRoadRoute then
        match fetchRoadRoute s2 outcome with
        | (some r, s') => (r, s')
        | (none, s') => buildStraightRoute s' olat olng dlat dlng
      else buildStraightRoute s2 olat olng dlat dlng
    let s4 := { s3 with
      routeLayers := s3.routeLayers
        ++ [{ polyline := res.2, originMarker := om, destinationMarker := dm }] }
    let s5 := if opts.fitBounds then { s4 with viewChanges := s4.viewChanges + 1 } else s4
    (some { distance := res.1.distance
            duration := res.1.duration
            type := res.1.type
            originMarker := om
            destinationMarker := dm
            polyline := res.2 }, s5)
  | _, _, _, _ => (none, s)

/-- Removes one `#routeLayers` entry's layers from the surface: the
polyline, then the origin marker and destination marker when present. -/
def clearRouteEntry (surf : List (Nat × LKind)) (e : RouteLayerEntry) :
    List (Nat × LKind) :=
  let surf1 := removeLayer surf e.polyline
  let surf2 := match e.originMarker with
    | some m => removeLayer surf1 m
    | none => surf1
  match e.destinationMarker with
  | some m => removeLayer surf2 m
  | none => surf2

/-- `clearRoutes()`: guarded on `#map`; removes every tracked polyline and
its paired endpoint markers from the surface and empties `#routeLayers`. -/
def clearRoutes (s : MapState) : MapState :=
  if !s.mapInit then s else
  { s with
    surface := s.routeLayers.foldl clearRouteEntry s.surface
    routeLayers := [] }

/-- The layer handles grouped in one `#routeLayers` entry. -/
def RouteLayerEntry.ids (e : RouteLayerEntry) : List Nat :=
  e.polyline :: (e.originMarker.toList ++ e.destinationMarker.toList)

/-- All layer handles referenced by `#routeLayers`. -/
def MapState.routeIds (s : MapState) : List Nat :=
  (s.routeLayers.map RouteLayerEntry.ids).flatten

/-- `drawRoute`'s coordinate precondition as the code checks it:
`!origin?.lat || !origin?.lng || !destination?.lat || !destination?.lng`
must be false, i.e. all four coordinates are truthy. -/
def endpointsTruthy (origin destination : Endpoint) : Bool :=
  jsTruthy origin.lat && jsTruthy origin.lng
    && jsTruthy destination.lat && jsTruthy destination.lng

/-- Whether an OSRM outcome is a routing failure for `#fetchRoadRoute`:
a thrown error, a missing `routes` array, or zero routes. -/
def osrmFailed : OsrmOutcome → Bool
  | .ok [] => true
  | .ok (_ :: _) => false
  | .missingRoutes => true
  | .netError => true

/-- The states reachable from a freshly constructed session through the
public API (map clicks enter through `placeSelector`, which the click
handler calls; `getSelectedCoordinates` is read-only). -/
inductive Reachable : MapState → Prop where
  | ctor (lat lng zoom : ℚ) (cid icon : String) :
      Reachable (mkSession lat lng zoom cid icon)
  | stepInitMap {s} (lat lng zoom : Option JSNum) (cid : Option String) :
      Reachable s → Reachable (initMap s lat lng zoom cid)
  | stepSetupSearch {s} : Reachable s → Reachable (setupSearch s)
  | stepSetupSelector {s} : Reachable s → Reachable (setupSelector s)
  | stepPlaceSelector {s} (lat lng : ℚ) (icon : Option String) :
      Reachable s → Reachable (placeSelector s lat lng icon)
  | stepClearSelector {s} : Reachable s → Reachable (clearSelector s)
  | stepConfirmSelection {s} (now : String) :
      Reachable s → Reachable (confirmSelection s now).2
  | stepDrawRoute {s} (origin destination : Endpoint) (opts : RouteOptions)
      (outcome : OsrmOutcome) :
      Reachable s → Reachable (drawRoute s origin destination opts outcome).2
  | stepSetView {s} (lat lng : ℚ) (zoom : Option ℚ) :
      Reachable s → Reachable (setView s lat lng zoom)
  | stepClearRoutes {s} : Reachable s → Reachable (clearRoutes s)
  | stepAddMarker {s} (lat lng : Option JSNum) (icon : String) (popup : Option String) :
      Reachable s → Reachable (addMarker s lat lng icon popup).2
  | stepAddMarkers {s} (specs : List MarkerSpec) (fitBounds : Bool) :
      Reachable s → Reachable (addMarkers s specs fitBounds).2
  | stepClearMarkers {s} : Reachable s → Reachable (clearMarkers s)
  | stepAddCircle {s} (lat lng : JSNum) (radius : ℚ) (popup : Option String) :
      Reachable s → Reachable (addCircle s lat lng radius popup).2
  | stepAddCircles {s} (specs : List CircleSpec) (fitBounds : Bool) :
      Reachable s → Reachable (addCircles s specs fitBounds)
  | stepClearCircles {s} : Reachable s → Reachable (clearCircles s)

/-- The session invariant maintained by every public operation: registry
handles are below the fresh-id counter, the registry lists are
duplicate-free, every marker/circle layer attached to the surface is
tracked in the corresponding registry, and the selector marker exists
exactly when a selection is stored. -/
structure Inv (s : MapState) : Prop where
  markersBound : ∀ i ∈ s.markers, i < s.nextId
  circlesBound : ∀ i ∈ s.circles, i < s.nextId
  markersNodup : s.markers.Nodup
  circlesNodup : s.circles.Nodup
  markerTracked : ∀ l ∈ s.surface, l.2 = LKind.marker → l.1 ∈ s.markers
  circleTracked : ∀ l ∈ s.surface, l.2 = LKind.circle → l.1 ∈ s.circles
  selIff : s.selectorMarker.isSome = s.selectedCoords.isSome

lemma removeLayer_eq_filter (surf : List (Nat × LKind)) (m : Nat) :
    removeLayer surf m = surf.filter (fun l => decide (l.1 ≠ m)) := by
  unfold removeLayer
  apply List.filter_congr
  intro l _
  simp [bne, beq_eq_decide]

lemma foldl_removeLayer (ms : List Nat) (surf : List (Nat × LKind)) :
    ms.foldl removeLayer surf = surf.filter (fun l => decide (l.1 ∉ ms)) := by
  induction ms generalizing surf with
  | nil => simp
  | cons m ms ih =>
    rw [List.foldl_cons, ih, removeLayer_eq_filter, List.filter_filter]
    apply List.filter_congr
    intro l _
    simp [List.mem_cons, not_or, Bool.and_comm]

lemma clearRouteEntry_eq_filter (surf : List (Nat × LKind)) (e : RouteLayerEntry) :
    clearRouteEntry surf e = surf.filter (fun l => decide (l.1 ∉ e.ids)) := by
  rcases e with ⟨p, om, dm⟩
  rcases om with _ | m1 <;> rcases dm with _ | m2 <;>
    · simp only [clearRouteEntry, RouteLayerEntry.ids, removeLayer_eq_filter,
        List.filter_filter, Option.toList]
      apply List.filter_congr
      intro l _
      simp [List.mem_cons, not_or]
      try ac_rfl

lemma foldl_clearRouteEntry (es : List RouteLayerEntry) (surf : List (Nat × LKind)) :
    es.foldl clearRouteEntry surf =
      surf.filter (fun l => decide (l.1 ∉ (es.map RouteLayerEntry.ids).flatten)) := by
  induction es generalizing surf with
  | nil => simp
  | cons e es ih =>
    rw [List.foldl_cons, ih, clearRouteEntry_eq_filter, List.filter_filter]
    apply List.filter_congr
    intro l _
    simp [List.mem_append, not_or, Bool.and_comm]

@[simp] lemma clearSelector_mapInit (s : MapState) :
    (clearSelector s).mapInit = s.mapInit := by
  unfold clearSelector
  cases hm : s.mapInit <;> cases hs : s.selectorMarker <;> simp [hm, hs]

@[simp] lemma clearSelector_nextId (s : MapState) :
    (clearSelector s).nextId = s.nextId := by
  unfold clearSelector
  cases hm : s.mapInit <;> cases hs : s.selectorMarker <;> simp [hm, hs]

@[simp] lemma clearSelector_markers (s : MapState) :
    (clearSelector s).markers = s.markers := by
  unfold clearSelector
  cases hm : s.mapInit <;> cases hs : s.selectorMarker <;> simp [hm, hs]

@[simp] lemma clearSelector_circles (s : MapState) :
    (clearSelector s).circles = s.circles := by
  unfold clearSelector
  cases hm : s.mapInit <;> cases hs : s.selectorMarker <;> simp [hm, hs]

@[simp] lemma clearSelector_routeLayers (s : MapState) :
    (clearSelector s).routeLayers = s.routeLayers := by
  unfold clearSelector
  cases hm : s.mapInit <;> cases hs : s.selectorMarker <;> simp [hm, hs]

@[simp] lemma clearSelector_isSelectorEnabled (s : MapState) :
    (clearSelector s).isSelectorEnabled = s.isSelectorEnabled := by
  unfold clearSelector
  cases hm : s.mapInit <;> cases hs : s.selectorMarker <;> simp [hm, hs]

lemma inv_initMap {s : MapState} (h : Inv s) (lat lng zoom : Option JSNum)
    (cid : Option String) : Inv (initMap s lat lng zoom cid) := by
  unfold initMap
  refine ⟨?_, ?_, h.markersNodup, h.circlesNodup, ?_, ?_, h.selIff⟩
  · exact fun i hi => Nat.lt_succ_of_lt (h.markersBound i hi)
  · exact fun i hi => Nat.lt_succ_of_lt (h.circlesBound i hi)
  · intro l hl hk
    rcases List.mem_append.mp hl with h1 | h1
    · exact h.markerTracked l h1 hk
    · simp at h1; subst h1; simp at hk
  · intro l hl hk
    rcases List.mem_append.mp hl with h1 | h1
    · exact h.circleTracked l h1 hk
    · simp at h1; subst h1; simp at hk

lemma inv_setupSearch {s : MapState} (h : Inv s) : Inv (setupSearch s) := h

lemma inv_setView {s : MapState} (h : Inv s) (lat lng : ℚ) (zoom : Option ℚ) :
    Inv (setView s lat lng zoom) := by
  unfold setView
  cases hreq : requireMap s
  · simpa [hreq] using h
  · simp only [hreq, Bool.not_true, Bool.false_eq_true, if_false]
    exact ⟨h.markersBound, h.circlesBound, h.markersNodup, h.circlesNodup,
      h.markerTracked, h.circleTracked, h.selIff⟩

lemma inv_addMarker {s : MapState} (h : Inv s) (lat lng : Option JSNum)
    (icon : String) (popup : Option String) :
    Inv (addMarker s lat lng icon popup).2 := by
  unfold addMarker
  cases hreq : requireMap s
  · simpa [hreq] using h
  · simp only [hreq, Bool.not_true, Bool.false_eq_true, if_false]
    refine ⟨?_, ?_, ?_, h.circlesNodup, ?_, ?_, h.selIff⟩
    · intro i hi
      rcases List.mem_append.mp hi with h1 | h1
      · exact Nat.lt_succ_of_lt (h.markersBound i h1)
      · simp at h1 ⊢; omega
    · exact fun i hi => Nat.lt_succ_of_lt (h.circlesBound i hi)
    · refine List.Nodup.append h.markersNodup (by simp) ?_
      intro i hi hj
      simp at hj
      subst hj
      exact absurd (h.markersBound _ hi) (lt_irrefl _)
    · intro l hl hk
      rcases List.mem_append.mp hl with h1 | h1
      · exact List.mem_append_left _ (h.markerTracked l h1 hk)
      · simp at h1; subst h1; simp
    · intro l hl hk
      rcases List.mem_append.mp hl with h1 | h1
      · exact h.circleTracked l h1 hk
      · simp at h1; subst h1; simp at hk

lemma inv_addCircle {s : MapState} (h : Inv s) (lat lng : JSNum) (radius : ℚ)
    (popup : Option String) :
    Inv (addCircle s lat lng radius popup).2 := by
  unfold addCircle
  cases hreq : requireMap s
  · simpa [hreq] using h
  · simp only [hreq, Bool.not_true, Bool.false_eq_true, if_false]
    refine ⟨?_, ?_, h.markersNodup, ?_, ?_, ?_, h.selIff⟩
    · exact fun i hi => Nat.lt_succ_of_lt (h.markersBound i hi)
    · intro i hi
      rcases List.mem_append.mp hi with h1 | h1
      · exact Nat.lt_succ_of_lt (h.circlesBound i h1)
      · simp at h1 ⊢; omega
    · refine List.Nodup.append h.circlesNodup (by simp) ?_
      intro i hi hj
      simp at hj
      subst hj
      exact absurd (h.circlesBound _ hi) (lt_irrefl _)
    · intro l hl hk
      rcases List.mem_append.mp hl with h1 | h1
      · exact h.markerTracked l h1 hk
      · simp at h1; subst h1; simp at hk
    · intro l hl hk
      rcases List.mem_append.mp hl with h1 | h1
      · exact List.mem_append_left _ (h.circleTracked l h1 hk)
      · simp at h1; subst h1; simp

lemma inv_clearMarkers {s : MapState} (h : Inv s) : Inv (clearMarkers s) := by
  unfold clearMarkers
  cases hm : s.mapInit
  · simpa [hm] using h
  · simp only [hm, Bool.not_true, Bool.false_eq_true, if_false]
    rw [foldl_removeLayer]
    refine ⟨by simp, h.circlesBound, by simp, h.circlesNodup, ?_, ?_, h.selIff⟩
    · intro l hl hk
      rcases List.mem_filter.mp hl with ⟨h1, h2⟩
      exact absurd (h.markerTracked l h1 hk) (by simpa using h2)
    · intro l hl hk
      exact h.circleTracked l (List.mem_filter.mp hl).1 hk

lemma inv_clearCircles {s : MapState} (h : Inv s) : Inv (clearCircles s) := by
  unfold clearCircles
  cases hm : s.mapInit
  · simpa [hm] using h
  · simp only [hm, Bool.not_true, Bool.false_eq_true, if_false]
    rw [foldl_removeLayer]
    refine ⟨h.markersBound, by simp, h.markersNodup, by simp, ?_, ?_, h.selIff⟩
    · intro l hl hk
      exact h.markerTracked l (List.mem_filter.mp hl).1 hk
    · intro l hl hk
      rcases List.mem_filter.mp hl with ⟨h1, h2⟩
      exact absurd (h.circleTracked l h1 hk) (by simpa using h2)

lemma inv_clearRoutes {s : MapState} (h : Inv s) : Inv (clearRoutes s) := by
  unfold clearRoutes
  cases hm : s.mapInit
  · simpa [hm] using h
  · simp only [hm, Bool.not_true, Bool.false_eq_true, if_false]
    rw [foldl_clearRouteEntry]
    refine ⟨h.markersBound, h.circlesBound, h.markersNodup, h.circlesNodup, ?_, ?_,
      h.selIff⟩
    · intro l hl hk
      exact h.markerTracked l (List.mem_filter.mp hl).1 hk
    · intro l hl hk
      exact h.circleTracked l (List.mem_filter.mp hl).1 hk

lemma inv_clearSelector {s : MapState} (h : Inv s) : Inv (clearSelector s) := by
  unfold clearSelector
  cases hm : s.mapInit
  · simpa [hm] using h
  · cases hs : s.selectorMarker with
    | none => simpa [hm, hs] using h
    | some m =>
      simp only [hm, hs, Bool.not_true, Bool.false_eq_true, if_false]
      rw [removeLayer_eq_filter]
      refine ⟨h.markersBound, h.circlesBound, h.markersNodup, h.circlesNodup, ?_, ?_,
        by simp⟩
      · intro l hl hk
        exact h.markerTracked l (List.mem_filter.mp hl).1 hk
      · intro l hl hk
        exact h.circleTracked l (List.mem_filter.mp hl).1 hk

lemma inv_confirmSelection {s : MapState} (h : Inv s) (now : String) :
    Inv (confirmSelection s now).2 := by
  unfold confirmSelection
  cases hg : getSelectedCoordinates s now
  · exact ⟨h.markersBound, h.circlesBound, h.markersNodup, h.circlesNodup,
      h.markerTracked, h.circleTracked, h.selIff⟩
  · cases hr : s.onSelectRegistered <;>
      simp only [hr, if_false, if_true] <;>
      exact ⟨h.markersBound, h.circlesBound, h.markersNodup, h.circlesNodup,
        h.markerTracked, h.circleTracked, h.selIff⟩

lemma inv_viewChanges {s : MapState} (h : Inv s) (n : Nat) :
    Inv { s with viewChanges := n } :=
  ⟨h.markersBound, h.circlesBound, h.markersNodup, h.circlesNodup,
    h.markerTracked, h.circleTracked, h.selIff⟩

lemma inv_addMarkersLoop {s : MapState} (h : Inv s) (specs : List MarkerSpec) :
    Inv (addMarkersLoop s specs).2 := by
  induction specs generalizing s with
  | nil => exact h
  | cons spec rest ih =>
    rcases hA : addMarker s spec.lat spec.lng (spec.icon.getD "package") spec.popup
      with ⟨mh, s1⟩
    have h1 : Inv s1 := by
      have := inv_addMarker h spec.lat spec.lng (spec.icon.getD "package") spec.popup
      rwa [hA] at this
    rcases hB : addMarkersLoop s1 rest with ⟨hs2, s2⟩
    have h2 : Inv s2 := by
      have := ih h1
      rwa [hB] at this
    show Inv (addMarkersLoop s (spec :: rest)).2
    simp only [addMarkersLoop, hA, hB]
    exact h2

lemma inv_addMarkers {s : MapState} (h : Inv s) (specs : List MarkerSpec)
    (fitBounds : Bool) : Inv (addMarkers s specs fitBounds).2 := by
  unfold addMarkers
  cases hreq : requireMap s
  · simpa [hreq] using h
  · simp only [hreq, Bool.not_true, Bool.false_eq_true, if_false]
    rcases hL : addMarkersLoop s specs with ⟨created, s1⟩
    have h1 : Inv s1 := by
      have := inv_addMarkersLoop h specs
      rwa [hL] at this
    by_cases hf : (fitBounds && created.length > 0) = true
    · simpa [hL, hf] using inv_viewChanges h1 _
    · simp only [Bool.not_eq_true] at hf
      simpa [hL, hf] using h1

lemma inv_addCirclesLoop {s : MapState} (h : Inv s) (specs : List CircleSpec) :
    Inv (addCirclesLoop s specs).2 := by
  induction specs generalizing s with
  | nil => exact h
  | cons spec rest ih =>
    rcases hA : addCircle s spec.lat spec.lng spec.radius spec.popup with ⟨ch, s1⟩
    have h1 : Inv s1 := by
      have := inv_addCircle h spec.lat spec.lng spec.radius spec.popup
      rwa [hA] at this
    rcases hB : addCirclesLoop s1 rest with ⟨hs2, s2⟩
    have h2 : Inv s2 := by
      have := ih h1
      rwa [hB] at this
    show Inv (addCirclesLoop s (spec :: rest)).2
    simp only [addCirclesLoop, hA, hB]
    exact h2

lemma inv_addCircles {s : MapState} (h : Inv s) (specs : List CircleSpec)
    (fitBounds : Bool) : Inv (addCircles s specs fitBounds) := by
  unfold addCircles
  cases hreq : requireMap s
  · simpa [hreq] using h
  · simp only [hreq, Bool.not_true, Bool.false_eq_true, if_false]
    rcases hL : addCirclesLoop s specs with ⟨created, s1⟩
    have h1 : Inv s1 := by
      have := inv_addCirclesLoop h specs
      rwa [hL] at this
    by_cases hf : (fitBounds && created.length > 0) = true
    · simpa [hL, hf] using inv_viewChanges h1 _
    · simp only [Bool.not_eq_true] at hf
      simpa [hL, hf] using h1

lemma placeSelector_eq {s : MapState} (lat lng : ℚ) (icon : Option String)
    (h : requireSelector s = true) :
    placeSelector s lat lng icon =
      { clearSelector s with
        selectedCoords := some (lat, lng)
        surface := (clearSelector s).surface ++ [(s.nextId, .marker)]
        nextId := s.nextId + 1
        markers := s.markers ++ [s.nextId]
        selectorMarker := some s.nextId } := by
  have h' := h
  unfold requireSelector at h'
  simp only [Bool.and_eq_true] at h'
  obtain ⟨hm, he⟩ := h'
  unfold placeSelector addMarker requireMap
  simp [h, hm]

lemma inv_placeSelector {s : MapState} (h : Inv s) (lat lng : ℚ)
    (icon : Option String) : Inv (placeSelector s lat lng icon) := by
  cases hreq : requireSelector s
  · unfold placeSelector
    simpa [hreq] using h
  · rw [placeSelector_eq lat lng icon hreq]
    have hc := inv_clearSelector h
    refine ⟨?_, ?_, ?_, hc.circlesNodup, ?_, ?_, by simp⟩
    · intro i hi
      rcases List.mem_append.mp hi with h1 | h1
      · exact Nat.lt_succ_of_lt (h.markersBound i h1)
      · simp at h1 ⊢; omega
    · intro i hi
      have := hc.circlesBound i (by simpa using hi)
      simp at this ⊢; omega
    · refine List.Nodup.append h.markersNodup (by simp) ?_
      intro i hi hj
      simp at hj
      subst hj
      exact absurd (h.markersBound _ hi) (lt_irrefl _)
    · intro l hl hk
      rcases List.mem_append.mp hl with h1 | h1
      · have := hc.markerTracked l h1 hk
        simp at this
        exact List.mem_append_left _ this
      · simp at h1; subst h1; simp
    · intro l hl hk
      rcases List.mem_append.mp hl with h1 | h1
      · have := hc.circleTracked l h1 hk
        simpa using this
      · simp at h1; subst h1; simp at hk

lemma inv_setupSelector {s : MapState} (h : Inv s) : Inv (setupSelector s) := by
  unfold setupSelector
  cases hreq : requireMap s
  · simpa [hreq] using h
  · simp only [hreq, Bool.not_true, Bool.false_eq_true, if_false]
    have h1 : Inv { s with isSelectorEnabled := true, onSelectRegistered := true } :=
      ⟨h.markersBound, h.circlesBound, h.markersNodup, h.circlesNodup,
        h.markerTracked, h.circleTracked, h.selIff⟩
    exact inv_placeSelector h1 _ _ _

lemma drawRoute_state (s : MapState) (olat olng dlat dlng : ℚ) (oi op di dp : Option String)
    (opts : RouteOptions) (outcome : OsrmOutcome) (hm : s.mapInit = true)
    (h1 : olat ≠ 0) (h2 : olng ≠ 0) (h3 : dlat ≠ 0) (h4 : dlng ≠ 0) :
    (drawRoute s ⟨some (.num olat), some (.num olng), oi, op⟩
        ⟨some (.num dlat), some (.num dlng), di, dp⟩ opts outcome).2 =
      { s with
        surface := s.surface ++ [(s.nextId, .marker), (s.nextId + 1, .marker),
          (s.nextId + 2, .polyline)]
        nextId := s.nextId + 3
        markers := s.markers ++ [s.nextId, s.nextId + 1]
        routeLayers := s.routeLayers ++
          [⟨s.nextId + 2, some s.nextId, some (s.nextId + 1)⟩]
        viewChanges := if opts.fitBounds then s.viewChanges + 1 else s.viewChanges } := by
  unfold drawRoute addMarker buildStraightRoute fetchRoadRoute requireMap
  cases hro : opts.useRoadRoute
  · by_cases hf : opts.fitBounds = true <;>
      simp [hm, h1, h2, h3, h4, hro, hf]
  · rcases outcome with (_ | ⟨r, rs⟩) | _ | _ <;>
      by_cases hf : opts.fitBounds = true <;>
      simp [hm, h1, h2, h3, h4, hro, hf]

lemma drawRoute_fst_straight (s : MapState) (olat olng dlat dlng : ℚ)
    (oi op di dp : Option String) (opts : RouteOptions) (outcome : OsrmOutcome)
    (hm : s.mapInit = true) (h1 : olat ≠ 0) (h2 : olng ≠ 0) (h3 : dlat ≠ 0)
    (h4 : dlng ≠ 0) (hro : opts.useRoadRoute = false) :
    (drawRoute s ⟨some (.num olat), some (.num olng), oi, op⟩
        ⟨some (.num dlat), some (.num dlng), di, dp⟩ opts outcome).1 =
      some ⟨haversineDistance (olat : ℝ) (olng : ℝ) (dlat : ℝ) (dlng : ℝ), none,
        .straight, some s.nextId, some (s.nextId + 1), s.nextId + 2⟩ := by
  unfold drawRoute addMarker buildStraightRoute requireMap
  simp [hm, h1, h2, h3, h4, hro]

lemma drawRoute_fst_fallback (s : MapState) (olat olng dlat dlng : ℚ)
    (oi op di dp : Option String) (opts : RouteOptions) (outcome : OsrmOutcome)
    (hm : s.mapInit = true) (h1 : olat ≠ 0) (h2 : olng ≠ 0) (h3 : dlat ≠ 0)
    (h4 : dlng ≠ 0) (hro : opts.useRoadRoute = true)
    (hfail : osrmFailed outcome = true) :
    (drawRoute s ⟨some (.num olat), some (.num olng), oi, op⟩
        ⟨some (.num dlat), some (.num dlng), di, dp⟩ opts outcome).1 =
      some ⟨haversineDistance (olat : ℝ) (olng : ℝ) (dlat : ℝ) (dlng : ℝ), none,
        .straight, some s.nextId, some (s.nextId + 1), s.nextId + 2⟩ := by
  unfold drawRoute addMarker buildStraightRoute fetchRoadRoute requireMap
  rcases outcome with (_ | ⟨r, rs⟩) | _ | _
  · simp [hm, h1, h2, h3, h4, hro]
  · simp [osrmFailed] at hfail
  · simp [hm, h1, h2, h3, h4, hro]
  · simp [hm, h1, h2, h3, h4, hro]

lemma drawRoute_fst_road (s : MapState) (olat olng dlat dlng : ℚ)
    (oi op di dp : Option String) (opts : RouteOptions) (r : OsrmRoute)
    (rs : List OsrmRoute) (hm : s.mapInit = true) (h1 : olat ≠ 0) (h2 : olng ≠ 0)
    (h3 : dlat ≠ 0) (h4 : dlng ≠ 0) (hro : opts.useRoadRoute = true) :
    (drawRoute s ⟨some (.num olat), some (.num olng), oi, op⟩
        ⟨some (.num dlat), some (.num dlng), di, dp⟩ opts (.ok (r :: rs))).1 =
      some ⟨(r.distance : ℝ), some r.duration, .road,
        some s.nextId, some (s.nextId + 1), s.nextId + 2⟩ := by
  unfold drawRoute addMarker fetchRoadRoute requireMap
  simp [hm, h1, h2, h3, h4, hro]

lemma drawRoute_none (s : MapState) (origin destination : Endpoint)
    (opts : RouteOptions) (outcome : OsrmOutcome)
    (h : (s.mapInit && endpointsTruthy origin destination) = false) :
    drawRoute s origin destination opts outcome = (none, s) := by
  rcases origin with ⟨olat, olng, oi, op⟩
  rcases destination with ⟨dlat, dlng, di, dp⟩
  cases hm : s.mapInit
  · unfold drawRoute requireMap
    simp [hm]
  · rw [hm] at h
    simp only [Bool.true_and] at h
    unfold endpointsTruthy jsTruthy at h
    unfold drawRoute requireMap
    rcases olat with _ | (q1 | _) <;> rcases olng with _ | (q2 | _) <;>
      rcases dlat with _ | (q3 | _) <;> rcases dlng with _ | (q4 | _) <;>
      simp [hm, JSNum.truthy, bne] at h ⊢
    by_cases e1 : q1 = 0
    · simp [e1]
    · by_cases e2 : q2 = 0
      · simp [e2]
      · by_cases e3 : q3 = 0
        · simp [e3]
        · simp [h e1 e2 e3]

lemma inv_drawRoute {s : MapState} (h : Inv s) (origin destination : Endpoint)
    (opts : RouteOptions) (outcome : OsrmOutcome) :
    Inv (drawRoute s origin destination opts outcome).2 := by
  by_cases hT : (s.mapInit && endpointsTruthy origin destination) = true
  · have hand := hT
    simp only [Bool.and_eq_true] at hand
    obtain ⟨hm, hE⟩ := hand
    rcases origin with ⟨olat, olng, oi, op⟩
    rcases destination with ⟨dlat, dlng, di, dp⟩
    unfold endpointsTruthy jsTruthy at hE
    rcases olat with _ | (q1 | _) <;> rcases olng with _ | (q2 | _) <;>
      rcases dlat with _ | (q3 | _) <;> rcases dlng with _ | (q4 | _) <;>
      simp [JSNum.truthy, bne] at hE
    have n1 : q1 ≠ 0 := by tauto
    have n2 : q2 ≠ 0 := by tauto
    have n3 : q3 ≠ 0 := by tauto
    have n4 : q4 ≠ 0 := by tauto
    rw [drawRoute_state s q1 q2 q3 q4 oi op di dp opts outcome hm n1 n2 n3 n4]
    refine ⟨?_, ?_, ?_, h.circlesNodup, ?_, ?_, h.selIff⟩
    · intro i hi
      rcases List.mem_append.mp hi with h1 | h1
      · have := h.markersBound i h1; simp at this ⊢; omega
      · simp at h1 ⊢; omega
    · intro i hi
      have := h.circlesBound i hi; simp at this ⊢; omega
    · refine List.Nodup.append h.markersNodup (by simp) ?_
      intro i hi hj
      have := h.markersBound i hi
      simp at hj
      rcases hj with hj | hj <;> omega
    · intro l hl hk
      rcases List.mem_append.mp hl with h1 | h1
      · exact List.mem_append_left _ (h.markerTracked l h1 hk)
      · simp at h1
        rcases h1 with h1 | h1 | h1 <;> subst h1 <;> simp at hk ⊢
    · intro l hl hk
      rcases List.mem_append.mp hl with h1 | h1
      · exact h.circleTracked l h1 hk
      · simp at h1
        rcases h1 with h1 | h1 | h1 <;> subst h1 <;> simp at hk
  · simp only [Bool.not_eq_true] at hT
    rw [drawRoute_none s origin destination opts outcome hT]
    exact h

/-- Every reachable session state satisfies the session invariant. -/
lemma reachable_inv {s : MapState} (h : Reachable s) : Inv s := by
  induction h with
  | ctor lat lng zoom cid icon => constructor <;> simp [mkSession]
  | stepInitMap lat lng zoom cid _ ih => exact inv_initMap ih lat lng zoom cid
  | stepSetupSearch _ ih => exact inv_setupSearch ih
  | stepSetupSelector _ ih => exact inv_setupSelector ih
  | stepPlaceSelector lat lng icon _ ih => exact inv_placeSelector ih lat lng icon
  | stepClearSelector _ ih => exact inv_clearSelector ih
  | stepConfirmSelection now _ ih => exact inv_confirmSelection ih now
  | stepDrawRoute origin destination opts outcome _ ih =>
      exact inv_drawRoute ih origin destination opts outcome
  | stepSetView lat lng zoom _ ih => exact inv_setView ih lat lng zoom
  | stepClearRoutes _ ih => exact inv_clearRoutes ih
  | stepAddMarker lat lng icon popup _ ih => exact inv_addMarker ih lat lng icon popup
  | stepAddMarkers specs fitBounds _ ih => exact inv_addMarkers ih specs fitBounds
  | stepClearMarkers _ ih => exact inv_clearMarkers ih
  | stepAddCircle lat lng radius popup _ ih => exact inv_addCircle ih lat lng radius popup
  | stepAddCircles specs fitBounds _ ih => exact inv_addCircles ih specs fitBounds
  | stepClearCircles _ ih => exact inv_clearCircles ih

lemma atan2_zero_one : atan2 0 1 = 0 := by
  unfold atan2
  rw [if_pos one_pos]
  simp

lemma sin_sq_swap (u v : ℝ) :
    Real.sin ((v - u) * Real.pi / 180 / 2) ^ 2
      = Real.sin ((u - v) * Real.pi / 180 / 2) ^ 2 := by
  have hx : (v - u) * Real.pi / 180 / 2 = -((u - v) * Real.pi / 180 / 2) := by ring
  rw [hx, Real.sin_neg]
  ring

lemma haversineDistance_comm (a₁ b₁ a₂ b₂ : ℝ) :
    haversineDistance a₁ b₁ a₂ b₂ = haversineDistance a₂ b₂ a₁ b₁ := by
  simp only [haversineDistance]
  have ha :
      Real.sin ((a₂ - a₁) * Real.pi / 180 / 2) ^ 2
        + Real.cos (a₁ * Real.pi / 180) * Real.cos (a₂ * Real.pi / 180)
          * Real.sin ((b₂ - b₁) * Real.pi / 180 / 2) ^ 2
      = Real.sin ((a₁ - a₂) * Real.pi / 180 / 2) ^ 2
        + Real.cos (a₂ * Real.pi / 180) * Real.cos (a₁ * Real.pi / 180)
          * Real.sin ((b₁ - b₂) * Real.pi / 180 / 2) ^ 2 := by
    rw [sin_sq_swap a₁ a₂, sin_sq_swap b₁ b₂]
    ring
  rw [ha]

lemma haversineDistance_self (a b : ℝ) : haversineDistance a b a b = 0 := by
  simp only [haversineDistance]
  have ha : Real.sin ((a - a) * Real.pi / 180 / 2) ^ 2
      + Real.cos (a * Real.pi / 180) * Real.cos (a * Real.pi / 180)
        * Real.sin ((b - b) * Real.pi / 180 / 2) ^ 2 = 0 := by
    simp
  rw [ha]
  rw [Real.sqrt_zero, sub_zero, Real.sqrt_one, atan2_zero_one, mul_zero]

lemma ratTrunc_intCast (z : ℤ) : ratTrunc (z : ℚ) = z := by
  unfold ratTrunc
  split <;> simp

lemma jsOr_falsy (v : JSNum) (c : ℚ) (h : v.truthy = false) : jsOr v c = c := by
  cases v with
  | num q =>
    have : q = 0 := by simpa [JSNum.truthy] using h
    simp [jsOr, this]
  | nan => rfl

lemma jsOr_truthy (q c : ℚ) (h : q ≠ 0) : jsOr (.num q) c = q := by
  simp [jsOr, h]

lemma drawRoute_fst_markers (s : MapState) (olat olng dlat dlng : ℚ)
    (oi op di dp : Option String) (opts : RouteOptions) (outcome : OsrmOutcome)
    (hm : s.mapInit = true) (h1 : olat ≠ 0) (h2 : olng ≠ 0) (h3 : dlat ≠ 0)
    (h4 : dlng ≠ 0) :
    ((drawRoute s ⟨some (.num olat), some (.num olng), oi, op⟩
        ⟨some (.num dlat), some (.num dlng), di, dp⟩ opts outcome).1.map
      (fun r => (r.originMarker, r.destinationMarker, r.polyline)))
      = some (some s.nextId, some (s.nextId + 1), s.nextId + 2) := by
  cases hro : opts.useRoadRoute
  · rw [drawRoute_fst_straight s olat olng dlat dlng oi op di dp opts outcome
      hm h1 h2 h3 h4 hro]
    rfl
  · rcases outcome with (_ | ⟨r, rs⟩) | _ | _
    · rw [drawRoute_fst_fallback s olat olng dlat dlng oi op di dp opts (.ok [])
        hm h1 h2 h3 h4 hro (by rfl)]
      rfl
    · rw [drawRoute_fst_road s olat olng dlat dlng oi op di dp opts r rs
        hm h1 h2 h3 h4 hro]
      rfl
    · rw [drawRoute_fst_fallback s olat olng dlat dlng oi op di dp opts
        .missingRoutes hm h1 h2 h3 h4 hro (by rfl)]
      rfl
    · rw [drawRoute_fst_fallback s olat olng dlat dlng oi op di dp opts
        .netError hm h1 h2 h3 h4 hro (by rfl)]
      rfl

lemma drawRoute_fst_isSome (s : MapState) (olat olng dlat dlng : ℚ)
    (oi op di dp : Option String) (opts : RouteOptions) (outcome : OsrmOutcome)
    (hm : s.mapInit = true) (h1 : olat ≠ 0) (h2 : olng ≠ 0) (h3 : dlat ≠ 0)
    (h4 : dlng ≠ 0) :
    (drawRoute s ⟨some (.num olat), some (.num olng), oi, op⟩
        ⟨some (.num dlat), some (.num dlng), di, dp⟩ opts outcome).1.isSome = true := by
  have h := drawRoute_fst_markers s olat olng dlat dlng oi op di dp opts outcome
    hm h1 h2 h3 h4
  cases hres : (drawRoute s ⟨some (.num olat), some (.num olng), oi, op⟩
      ⟨some (.num dlat), some (.num dlng), di, dp⟩ opts outcome).1
  · rw [hres] at h
    simp at h
  · rfl

/-- C8: the Haversine distance is a pure, deterministic function of its two
coordinates (it is a function of exactly its four coordinate arguments in
this embedding); for all coordinate pairs it is symmetric, and it is zero on
coincident points. -/
theorem c8_haversine_symmetric_and_zero (lat1 lng1 lat2 lng2 : ℝ) :
    haversineDistance lat1 lng1 lat2 lng2 = haversineDistance lat2 lng2 lat1 lng1
      ∧ haversineDistance lat1 lng1 lat1 lng1 = 0 :=
  ⟨haversineDistance_comm lat1 lng1 lat2 lng2, haversineDistance_self lat1 lng1⟩

/-- C4: code-bug evidence.  On an initialized session,
`addMarkers([], { fitBounds: true })` performs no state change at all — in
particular no view change — but evaluates to `this` (the session object),
not to the array of successfully created marker handles that the claim and
the function's own JSDoc (`@returns {Array}`) describe.  Only the
uninitialized guard path returns an (empty) array. -/
theorem c4_addMarkers_returns_self :
    addMarkers (initMap defaultSession none none none none) [] true
        = (.self, initMap defaultSession none none none none)
      ∧ addMarkers defaultSession [] true = (.arr [], defaultSession) := by
  constructor <;> rfl

/-- C7 counterexample: the claim says any provided numeric `lat` is adopted
as the new config value, but `initMap({ lat: 0, lng: -66, zoom: 5 })` on a
default session leaves `config.lat` at the default `8.240773`: the code
resolves parameters with `parseFloat(lat) || this.config.lat`, and the
numeric value `0` is falsy. -/
theorem c7_counterexample :
    (initMap defaultSession (some (.num 0)) (some (.num (-66))) (some (.num 5))
        none).configLat = 8240773/1000000
      ∧ (initMap defaultSession (some (.num 0)) (some (.num (-66))) (some (.num 5))
        none).configLat ≠ 0 := by
  constructor
  · rfl
  · intro h
    rw [show (initMap defaultSession (some (.num 0)) (some (.num (-66)))
      (some (.num 5)) none).configLat = 8240773/1000000 from rfl] at h
    norm_num at h

/-- C7 amended: `initMap` merges the provided `lat`/`lng`/`zoom` over the
config with the JS `||` idiom: a provided value whose numeric parse is
truthy (nonzero, not `NaN`) is adopted as the new config value and used as
the view center and zoom, while a missing value, a `NaN`, or the numeric
value `0` falls back to the prior config value. -/
theorem c7_initMap_merge (s : MapState) (q g : ℚ) (z : ℤ) (cid : Option String)
    (flat flng fzoom : Option JSNum)
    (hq : q ≠ 0) (hg : g ≠ 0) (hz : z ≠ 0)
    (hflat : (parseFloatJS flat).truthy = false)
    (hflng : (parseFloatJS flng).truthy = false)
    (hfzoom : (parseIntJS fzoom).truthy = false) :
    (initMap s (some (.num q)) (some (.num g)) (some (.num (z : ℚ))) cid).configLat = q
    ∧ (initMap s (some (.num q)) (some (.num g)) (some (.num (z : ℚ))) cid).configLng = g
    ∧ (initMap s (some (.num q)) (some (.num g)) (some (.num (z : ℚ))) cid).configZoom
        = (z : ℚ)
    ∧ (initMap s (some (.num q)) (some (.num g)) (some (.num (z : ℚ))) cid).viewCenter
        = (q, g)
    ∧ (initMap s (some (.num q)) (some (.num g)) (some (.num (z : ℚ))) cid).viewZoom
        = (z : ℚ)
    ∧ (initMap s flat flng fzoom cid).configLat = s.configLat
    ∧ (initMap s flat flng fzoom cid).configLng = s.configLng
    ∧ (initMap s flat flng fzoom cid).configZoom = s.configZoom
    ∧ (initMap s flat flng fzoom cid).viewCenter = (s.configLat, s.configLng) := by
  have hzq : (z : ℚ) ≠ 0 := Int.cast_ne_zero.mpr hz
  have a1 : jsOr (.num q) s.configLat = q := jsOr_truthy _ _ hq
  have a2 : jsOr (.num g) s.configLng = g := jsOr_truthy _ _ hg
  have a3 : jsOr (.num (z : ℚ)) s.configZoom = (z : ℚ) := jsOr_truthy _ _ hzq
  have az : parseIntJS (some (.num (z : ℚ))) = .num (z : ℚ) := by
    simp [parseIntJS, ratTrunc_intCast]
  have e1 : jsOr (parseFloatJS flat) s.configLat = s.configLat := jsOr_falsy _ _ hflat
  have e2 : jsOr (parseFloatJS flng) s.configLng = s.configLng := jsOr_falsy _ _ hflng
  have e3 : jsOr (parseIntJS fzoom) s.configZoom = s.configZoom := jsOr_falsy _ _ hfzoom
  have af1 : parseFloatJS (some (.num q)) = .num q := rfl
  have af2 : parseFloatJS (some (.num g)) = .num g := rfl
  refine ⟨?_, ?_, ?_, ?_, ?_, ?_, ?_, ?_, ?_⟩ <;>
    simp [initMap, af1, af2, az, a1, a2, a3, e1, e2, e3]

/-- C7 witness: `initMap({ lat: 10.48, lng: -66.9, zoom: 12 })` adopts all
three provided values, and `initMap({ lat: NaN })` (with the other
parameters omitted) falls back to the default config view. -/
theorem c7_initMap_merge_witness :
    (initMap defaultSession (some (.num (1048/100))) (some (.num (-669/10)))
        (some (.num ((12 : ℤ) : ℚ))) none).configLat = 1048/100
    ∧ (initMap defaultSession (some (.num (1048/100))) (some (.num (-669/10)))
        (some (.num ((12 : ℤ) : ℚ))) none).configLng = -669/10
    ∧ (initMap defaultSession (some (.num (1048/100))) (some (.num (-669/10)))
        (some (.num ((12 : ℤ) : ℚ))) none).configZoom = ((12 : ℤ) : ℚ)
    ∧ (initMap defaultSession (some (.num (1048/100))) (some (.num (-669/10)))
        (some (.num ((12 : ℤ) : ℚ))) none).viewCenter = (1048/100, -669/10)
    ∧ (initMap defaultSession (some (.num (1048/100))) (some (.num (-669/10)))
        (some (.num ((12 : ℤ) : ℚ))) none).viewZoom = ((12 : ℤ) : ℚ)
    ∧ (initMap defaultSession (some .nan) none none none).configLat
        = defaultSession.configLat
    ∧ (initMap defaultSession (some .nan) none none none).configLng
        = defaultSession.configLng
    ∧ (initMap defaultSession (some .nan) none none none).configZoom
        = defaultSession.configZoom
    ∧ (initMap defaultSession (some .nan) none none none).viewCenter
        = (defaultSession.configLat, defaultSession.configLng) :=
  c7_initMap_merge defaultSession (1048/100) (-669/10) 12 none (some .nan) none none
    (by norm_num) (by norm_num) (by norm_num) (by rfl) (by rfl) (by rfl)

/-- C2 counterexample: the claim says every endpoint pair with numeric
`lat`/`lng` yields a non-null RouteResult on an initialized session, but an
origin latitude of `0` (a numeric value — the equator) makes
`!origin?.lat` true, so `drawRoute` returns null. -/
theorem c2_counterexample :
    (drawRoute (initMap defaultSession none none none none)
        ⟨some (.num 0), some (.num (-66)), none, none⟩
        ⟨some (.num 10), some (.num (-661/10)), none, none⟩ {} .netError).1
      = none := by
  rw [drawRoute_none _ _ _ _ _ (by rfl)]

/-- C2 amended: on an initialized session, `drawRoute` returns a non-null
RouteResult exactly when all four endpoint coordinates are truthy JS numbers
(present, non-`NaN` and nonzero); whenever the session is uninitialized or
any coordinate is falsy — which includes the numeric value `0` — it returns
null without side effects: no marker, path, registry entry or view change
is produced (the state is unchanged). -/
theorem c2_drawRoute_guard (s : MapState) (origin destination : Endpoint)
    (opts : RouteOptions) (outcome : OsrmOutcome) :
    (drawRoute s origin destination opts outcome).1.isSome
        = (s.mapInit && endpointsTruthy origin destination)
      ∧ ((s.mapInit && endpointsTruthy origin destination) = false →
          drawRoute s origin destination opts outcome = (none, s)) := by
  constructor
  · by_cases hT : (s.mapInit && endpointsTruthy origin destination) = true
    · rw [hT]
      have hand := hT
      simp only [Bool.and_eq_true] at hand
      obtain ⟨hm, hE⟩ := hand
      rcases origin with ⟨olat, olng, oi, op⟩
      rcases destination with ⟨dlat, dlng, di, dp⟩
      unfold endpointsTruthy jsTruthy at hE
      rcases olat with _ | (q1 | _) <;> rcases olng with _ | (q2 | _) <;>
        rcases dlat with _ | (q3 | _) <;> rcases dlng with _ | (q4 | _) <;>
        simp [JSNum.truthy, bne] at hE
      have n1 : q1 ≠ 0 := by tauto
      have n2 : q2 ≠ 0 := by tauto
      have n3 : q3 ≠ 0 := by tauto
      have n4 : q4 ≠ 0 := by tauto
      exact drawRoute_fst_isSome s q1 q2 q3 q4 oi op di dp opts outcome hm n1 n2 n3 n4
    · simp only [Bool.not_eq_true] at hT
      rw [drawRoute_none _ _ _ _ _ hT, hT]
      rfl
  · intro hF
    exact drawRoute_none _ _ _ _ _ hF

/-- C2 witness: on the uninitialized default session the guard composite is
false and `drawRoute` returns null leaving the session untouched. -/
theorem c2_drawRoute_guard_witness :
    drawRoute defaultSession
        ⟨some (.num 10), some (.num (-66)), none, none⟩
        ⟨some (.num (101/10)), some (.num (-661/10)), none, none⟩ {} .netError
      = (none, defaultSession) :=
  (c2_drawRoute_guard defaultSession
    ⟨some (.num 10), some (.num (-66)), none, none⟩
    ⟨some (.num (101/10)), some (.num (-661/10)), none, none⟩ {} .netError).2
    (by rfl)

/-- C5: on an initialized session with valid (truthy) endpoints,
`drawRoute` with `useRoadRoute: true` against a routing service that fails —
zero routes, a malformed response without a `routes` array, or a thrown
network error — falls back to the straight-line builder and still resolves
to a non-null result with `type: 'straight'`, null duration and the
Haversine distance, with both endpoint markers placed on the map; the
routing failure is never surfaced to the caller as an error. -/
theorem c5_road_fallback (s : MapState) (olat olng dlat dlng : ℚ)
    (oi op di dp : Option String) (opts : RouteOptions) (outcome : OsrmOutcome)
    (hm : s.mapInit = true) (h1 : olat ≠ 0) (h2 : olng ≠ 0) (h3 : dlat ≠ 0)
    (h4 : dlng ≠ 0) (hro : opts.useRoadRoute = true)
    (hfail : osrmFailed outcome = true) :
    (drawRoute s ⟨some (.num olat), some (.num olng), oi, op⟩
        ⟨some (.num dlat), some (.num dlng), di, dp⟩ opts outcome).1
      = some ⟨haversineDistance (olat : ℝ) (olng : ℝ) (dlat : ℝ) (dlng : ℝ), none,
          .straight, some s.nextId, some (s.nextId + 1), s.nextId + 2⟩
    ∧ (s.nextId, LKind.marker) ∈
        (drawRoute s ⟨some (.num olat), some (.num olng), oi, op⟩
          ⟨some (.num dlat), some (.num dlng), di, dp⟩ opts outcome).2.surface
    ∧ (s.nextId + 1, LKind.marker) ∈
        (drawRoute s ⟨some (.num olat), some (.num olng), oi, op⟩
          ⟨some (.num dlat), some (.num dlng), di, dp⟩ opts outcome).2.surface := by
  refine ⟨drawRoute_fst_fallback s olat olng dlat dlng oi op di dp opts outcome
    hm h1 h2 h3 h4 hro hfail, ?_, ?_⟩ <;>
  · rw [drawRoute_state s olat olng dlat dlng oi op di dp opts outcome hm h1 h2 h3 h4]
    simp

/-- C5 witness: with `useRoadRoute: true` and a service response carrying
zero routes, `drawRoute` on a freshly initialized default session falls back
to a straight-line result and places both endpoint markers (handles 1 and 2;
handle 0 is the tile layer). -/
theorem c5_road_fallback_witness :
    (drawRoute (initMap defaultSession none none none none)
        ⟨some (.num 10), some (.num (-66)), none, none⟩
        ⟨some (.num (101/10)), some (.num (-661/10)), none, none⟩
        ⟨true, true⟩ (.ok [])).1
      = some ⟨haversineDistance ((10 : ℚ) : ℝ) (((-66) : ℚ) : ℝ)
          (((101/10) : ℚ) : ℝ) (((-661/10) : ℚ) : ℝ), none, .straight,
          some 1, some 2, 3⟩
    ∧ (1, LKind.marker) ∈
        (drawRoute (initMap defaultSession none none none none)
          ⟨some (.num 10), some (.num (-66)), none, none⟩
          ⟨some (.num (101/10)), some (.num (-661/10)), none, none⟩
          ⟨true, true⟩ (.ok [])).2.surface
    ∧ (2, LKind.marker) ∈
        (drawRoute (initMap defaultSession none none none none)
          ⟨some (.num 10), some (.num (-66)), none, none⟩
          ⟨some (.num (101/10)), some (.num (-661/10)), none, none⟩
          ⟨true, true⟩ (.ok [])).2.surface :=
  c5_road_fallback (initMap defaultSession none none none none)
    10 (-66) (101/10) (-661/10) none none none none ⟨true, true⟩ (.ok [])
    (by rfl) (by norm_num) (by norm_num) (by norm_num) (by norm_num)
    (by rfl) (by rfl)

/-- C6: `confirmSelection` returns null, does not invoke the registered
callback and surfaces a blocking user notice when no point is selected;
when a point is selected it invokes the registered callback exactly once
with the derived SelectedPoint (numeric lat/lng equal to the placed
coordinates), returns that same value, and leaves the stored selection
(coordinates and selector marker) unchanged. -/
theorem c6_confirmSelection (s t : MapState) (now now' : String) (lat lng : ℚ)
    (hnone : s.selectedCoords = none)
    (hsel : t.selectedCoords = some (lat, lng))
    (hreg : t.onSelectRegistered = true) :
    (confirmSelection s now).1 = none
    ∧ (confirmSelection s now).2.callbackLog = s.callbackLog
    ∧ (confirmSelection s now).2.alerts = s.alerts + 1
    ∧ (confirmSelection t now').1
        = some ⟨lat, lng, now', toString lat ++ ", " ++ toString lng,
            googleMapsLink lat lng, openStreetMapLink lat lng⟩
    ∧ (confirmSelection t now').2.callbackLog = t.callbackLog ++ [(lat, lng)]
    ∧ (confirmSelection t now').2.selectedCoords = t.selectedCoords
    ∧ (confirmSelection t now').2.selectorMarker = t.selectorMarker := by
  refine ⟨?_, ?_, ?_, ?_, ?_, ?_, ?_⟩ <;>
    simp [confirmSelection, getSelectedCoordinates, hnone, hsel, hreg]

/-- C6 witness: confirming on a fresh session (nothing selected) returns
null, logs no callback invocation and raises one alert; after
`placeSelector(10.48, -66.9)` on an enabled session, confirming invokes the
callback once with those coordinates, returns them, and leaves the
selection in place. -/
theorem c6_confirmSelection_witness :
    (confirmSelection defaultSession "t0").1 = none
    ∧ (confirmSelection defaultSession "t0").2.callbackLog
        = defaultSession.callbackLog
    ∧ (confirmSelection defaultSession "t0").2.alerts = defaultSession.alerts + 1
    ∧ (confirmSelection (placeSelector (setupSelector
          (initMap defaultSession none none none none)) (1048/100) (-669/10) none)
        "t1").1
        = some ⟨1048/100, -669/10, "t1",
            toString (1048/100 : ℚ) ++ ", " ++ toString (-669/10 : ℚ),
            googleMapsLink (1048/100) (-669/10),
            openStreetMapLink (1048/100) (-669/10)⟩
    ∧ (confirmSelection (placeSelector (setupSelector
          (initMap defaultSession none none none none)) (1048/100) (-669/10) none)
        "t1").2.callbackLog
        = (placeSelector (setupSelector (initMap defaultSession none none none none))
            (1048/100) (-669/10) none).callbackLog ++ [(1048/100, -669/10)]
    ∧ (confirmSelection (placeSelector (setupSelector
          (initMap defaultSession none none none none)) (1048/100) (-669/10) none)
        "t1").2.selectedCoords
        = (placeSelector (setupSelector (initMap defaultSession none none none none))
            (1048/100) (-669/10) none).selectedCoords
    ∧ (confirmSelection (placeSelector (setupSelector
          (initMap defaultSession none none none none)) (1048/100) (-669/10) none)
        "t1").2.selectorMarker
        = (placeSelector (setupSelector (initMap defaultSession none none none none))
            (1048/100) (-669/10) none).selectorMarker :=
  c6_confirmSelection defaultSession
    (placeSelector (setupSelector (initMap defaultSession none none none none))
      (1048/100) (-669/10) none)
    "t0" "t1" (1048/100) (-669/10) (by rfl) (by rfl) (by rfl)

/-- C10: every public operation other than initialization, invoked on an
uninitialized session, never throws, performs no layer mutation, and fails
safely: the session state is unchanged and the operation returns its safe
value — null (`addMarker`, `addCircle`, `drawRoute`), an empty result
(`addMarkers`), or the session itself as a no-op (`setupSearch`,
`setupSelector`, `setView`, `addCircles` and the clear operations;
`placeSelector` and `clearRoutes`/`clearSelector` return without a value). -/
theorem c10_uninitialized_noop (s : MapState) (hs : s.mapInit = false)
    (lat lng : ℚ) (zoom : Option ℚ) (latj lngj : Option JSNum) (icon : String)
    (popup popup2 : Option String) (selIcon : Option String)
    (specs : List MarkerSpec) (cspecs : List CircleSpec) (fb fb2 : Bool)
    (clat clng : JSNum) (radius : ℚ)
    (origin destination : Endpoint) (opts : RouteOptions) (outcome : OsrmOutcome) :
    setupSearch s = s
    ∧ setupSelector s = s
    ∧ placeSelector s lat lng selIcon = s
    ∧ clearSelector s = s
    ∧ drawRoute s origin destination opts outcome = (none, s)
    ∧ setView s lat lng zoom = s
    ∧ addMarker s latj lngj icon popup = (none, s)
    ∧ addMarkers s specs fb = (.arr [], s)
    ∧ addCircle s clat clng radius popup2 = (none, s)
    ∧ addCircles s cspecs fb2 = s
    ∧ clearRoutes s = s
    ∧ clearMarkers s = s
    ∧ clearCircles s = s := by
  refine ⟨rfl, ?_, ?_, ?_, drawRoute_none s origin destination opts outcome
    (by simp [hs]), ?_, ?_, ?_, ?_, ?_, ?_, ?_, ?_⟩ <;>
    simp [setupSelector, placeSelector, clearSelector, setView, addMarker,
      addMarkers, addCircle, addCircles, clearRoutes, clearMarkers, clearCircles,
      requireMap, requireSelector, hs]

/-- C10 witness: all guarded operations applied to the fresh (uninitialized)
default session leave it unchanged and return their safe values. -/
theorem c10_uninitialized_noop_witness :
    setupSearch defaultSession = defaultSession
    ∧ setupSelector defaultSession = defaultSession
    ∧ placeSelector defaultSession 10 (-66) none = defaultSession
    ∧ clearSelector defaultSession = defaultSession
    ∧ drawRoute defaultSession ⟨some (.num 10), some (.num (-66)), none, none⟩
        ⟨some (.num 11), some (.num (-67)), none, none⟩ {} .netError
        = (none, defaultSession)
    ∧ setView defaultSession 10 (-66) (some 9) = defaultSession
    ∧ addMarker defaultSession (some (.num 10)) (some (.num (-66))) "x" none
        = (none, defaultSession)
    ∧ addMarkers defaultSession [] true = (.arr [], defaultSession)
    ∧ addCircle defaultSession (.num 10) (.num (-66)) 5000 none
        = (none, defaultSession)
    ∧ addCircles defaultSession [] true = defaultSession
    ∧ clearRoutes defaultSession = defaultSession
    ∧ clearMarkers defaultSession = defaultSession
    ∧ clearCircles defaultSession = defaultSession :=
  c10_uninitialized_noop defaultSession (by rfl) 10 (-66) (some 9)
    (some (.num 10)) (some (.num (-66))) "x" none none none [] [] true true
    (.num 10) (.num (-66)) 5000
    ⟨some (.num 10), some (.num (-66)), none, none⟩
    ⟨some (.num 11), some (.num (-67)), none, none⟩ {} .netError

/-- C1 counterexample: the claim says route endpoint markers are not
tracked in the generic marker registry, but after one `drawRoute` on a
freshly initialized session the origin endpoint marker (handle 1) is the
result's origin marker AND is an element of `this.#markers` —
`drawRoute` creates its endpoint markers through `addMarker`, which pushes
every marker it creates onto the generic registry. -/
theorem c1_counterexample :
    ((drawRoute (initMap defaultSession none none none none)
        ⟨some (.num 10), some (.num (-66)), none, none⟩
        ⟨some (.num (101/10)), some (.num (-661/10)), none, none⟩ {} .netError).1.map
      (fun r => r.originMarker)) = some (some 1)
    ∧ 1 ∈ (drawRoute (initMap defaultSession none none none none)
        ⟨some (.num 10), some (.num (-66)), none, none⟩
        ⟨some (.num (101/10)), some (.num (-661/10)), none, none⟩ {} .netError).2.markers := by
  constructor
  · rw [drawRoute_fst_straight (initMap defaultSession none none none none)
      10 (-66) (101/10) (-661/10) none none none none {} .netError (by rfl)
      (by norm_num) (by norm_num) (by norm_num) (by norm_num) (by rfl)]
    rfl
  · rw [drawRoute_state (initMap defaultSession none none none none)
      10 (-66) (101/10) (-661/10) none none none none {} .netError (by rfl)
      (by norm_num) (by norm_num) (by norm_num) (by norm_num)]
    simp
    decide

/-- C1 amended: the origin and destination markers placed by `drawRoute`
ARE tracked in the generic marker registry (they are created through
`addMarker`). `clearRoutes` empties the route-layer list and removes from
the surface exactly the layers referenced by route entries (paths and their
paired endpoint markers), while leaving the generic marker and circle
registry lists untouched; consequently `clearMarkers` — which removes every
layer tracked in the marker registry — also removes route endpoint
markers. -/
theorem c1_route_marker_registry (s t : MapState) (olat olng dlat dlng : ℚ)
    (oi op di dp : Option String) (opts : RouteOptions) (outcome : OsrmOutcome)
    (hm : s.mapInit = true) (h1 : olat ≠ 0) (h2 : olng ≠ 0) (h3 : dlat ≠ 0)
    (h4 : dlng ≠ 0) (ht : t.mapInit = true) :
    ((drawRoute s ⟨some (.num olat), some (.num olng), oi, op⟩
        ⟨some (.num dlat), some (.num dlng), di, dp⟩ opts outcome).1.map
      (fun r => (r.originMarker, r.destinationMarker, r.polyline)))
        = some (some s.nextId, some (s.nextId + 1), s.nextId + 2)
    ∧ s.nextId ∈ (drawRoute s ⟨some (.num olat), some (.num olng), oi, op⟩
        ⟨some (.num dlat), some (.num dlng), di, dp⟩ opts outcome).2.markers
    ∧ s.nextId + 1 ∈ (drawRoute s ⟨some (.num olat), some (.num olng), oi, op⟩
        ⟨some (.num dlat), some (.num dlng), di, dp⟩ opts outcome).2.markers
    ∧ (clearRoutes t).routeLayers = []
    ∧ (clearRoutes t).markers = t.markers
    ∧ (clearRoutes t).circles = t.circles
    ∧ (clearRoutes t).surface = t.surface.filter (fun l => decide (l.1 ∉ t.routeIds))
    ∧ (clearMarkers t).surface = t.surface.filter (fun l => decide (l.1 ∉ t.markers))
    ∧ (clearMarkers t).markers = [] := by
  refine ⟨drawRoute_fst_markers s olat olng dlat dlng oi op di dp opts outcome
    hm h1 h2 h3 h4, ?_, ?_, ?_, ?_, ?_, ?_, ?_, ?_⟩
  · rw [drawRoute_state s olat olng dlat dlng oi op di dp opts outcome hm h1 h2 h3 h4]
    simp
  · rw [drawRoute_state s olat olng dlat dlng oi op di dp opts outcome hm h1 h2 h3 h4]
    simp
  · simp [clearRoutes, ht]
  · simp [clearRoutes, ht]
  · simp [clearRoutes, ht]
  · simp only [clearRoutes, ht, Bool.not_true, Bool.false_eq_true, if_false]
    rw [foldl_clearRouteEntry]
    rfl
  · simp only [clearMarkers, ht, Bool.not_true, Bool.false_eq_true, if_false]
    rw [foldl_removeLayer]
  · simp [clearMarkers, ht]

/-- C1 witness: on a freshly initialized default session, one `drawRoute`
yields endpoint markers 1 and 2 which are tracked in the generic registry,
and `clearRoutes`/`clearMarkers` behave as stated on that session. -/
theorem c1_route_marker_registry_witness :
    ((drawRoute (initMap defaultSession none none none none)
        ⟨some (.num 10), some (.num (-66)), none, none⟩
        ⟨some (.num 11), some (.num (-67)), none, none⟩ ⟨false, true⟩ .netError).1.map
      (fun r => (r.originMarker, r.destinationMarker, r.polyline)))
        = some (some 1, some 2, 3)
    ∧ 1 ∈ (drawRoute (initMap defaultSession none none none none)
        ⟨some (.num 10), some (.num (-66)), none, none⟩
        ⟨some (.num 11), some (.num (-67)), none, none⟩ ⟨false, true⟩ .netError).2.markers
    ∧ 2 ∈ (drawRoute (initMap defaultSession none none none none)
        ⟨some (.num 10), some (.num (-66)), none, none⟩
        ⟨some (.num 11), some (.num (-67)), none, none⟩ ⟨false, true⟩ .netError).2.markers
    ∧ (clearRoutes (initMap defaultSession none none none none)).routeLayers = []
    ∧ (clearRoutes (initMap defaultSession none none none none)).markers
        = (initMap defaultSession none none none none).markers
    ∧ (clearRoutes (initMap defaultSession none none none none)).circles
        = (initMap defaultSession none none none none).circles
    ∧ (clearRoutes (initMap defaultSession none none none none)).surface
        = (initMap defaultSession none none none none).surface.filter
            (fun l => decide (l.1 ∉ (initMap defaultSession none none none none).routeIds))
    ∧ (clearMarkers (initMap defaultSession none none none none)).surface
        = (initMap defaultSession none none none none).surface.filter
            (fun l => decide (l.1 ∉ (initMap defaultSession none none none none).markers))
    ∧ (clearMarkers (initMap defaultSession none none none none)).markers = [] :=
  c1_route_marker_registry (initMap defaultSession none none none none)
    (initMap defaultSession none none none none) 10 (-66) 11 (-67)
    none none none none ⟨false, true⟩ .netError (by rfl) (by norm_num)
    (by norm_num) (by norm_num) (by norm_num) (by rfl)

/-- C3 counterexample: the claim says each registry list's length always
equals the number of visible layers of that kind, but after
`initMap` → `drawRoute` → `clearRoutes` the marker registry still holds the
two route endpoint handles (`clearRoutes` removes their layers from the map
without touching `this.#markers`) while zero marker layers remain on the
surface: length 2 ≠ 0 visible. -/
theorem c3_counterexample :
    (clearRoutes (drawRoute (initMap defaultSession none none none none)
        ⟨some (.num 10), some (.num (-66)), none, none⟩
        ⟨some (.num 11), some (.num (-67)), none, none⟩ {} .netError).2).markers.length
      = 2
    ∧ ((clearRoutes (drawRoute (initMap defaultSession none none none none)
        ⟨some (.num 10), some (.num (-66)), none, none⟩
        ⟨some (.num 11), some (.num (-67)), none, none⟩ {} .netError).2).surface.filter
          (fun l => l.2 == LKind.marker)).length = 0 := by
  rw [drawRoute_state (initMap defaultSession none none none none)
    10 (-66) 11 (-67) none none none none {} .netError (by rfl)
    (by norm_num) (by norm_num) (by norm_num) (by norm_num)]
  constructor <;> decide

/-- C3 amended: after every sequence of public operations, each registry
list is duplicate-free and contains every currently-visible layer of its
kind (every marker layer on the surface is tracked in the marker registry,
every circle layer in the circle registry); however the registry may also
retain handles whose layers have already been removed (for example by
`clearRoutes` or `clearSelector`), so the list length can exceed the number
of visible layers of that kind. -/
theorem c3_registry_invariant (s : MapState) (hr : Reachable s) :
    s.markers.Nodup
    ∧ s.circles.Nodup
    ∧ s.surface.all
        (fun l => decide (l.2 = LKind.marker → l.1 ∈ s.markers)) = true
    ∧ s.surface.all
        (fun l => decide (l.2 = LKind.circle → l.1 ∈ s.circles)) = true := by
  have h := reachable_inv hr
  refine ⟨h.markersNodup, h.circlesNodup, ?_, ?_⟩
  · rw [List.all_eq_true]
    intro l hl
    exact decide_eq_true (fun hk => h.markerTracked l hl hk)
  · rw [List.all_eq_true]
    intro l hl
    exact decide_eq_true (fun hk => h.circleTracked l hl hk)

/-- C3 witness: the invariant instantiated at the reachable state reached
by initializing the default session. -/
theorem c3_registry_invariant_witness :
    (initMap defaultSession none none none none).markers.Nodup
    ∧ (initMap defaultSession none none none none).circles.Nodup
    ∧ (initMap defaultSession none none none none).surface.all
        (fun l => decide (l.2 = LKind.marker →
          l.1 ∈ (initMap defaultSession none none none none).markers)) = true
    ∧ (initMap defaultSession none none none none).surface.all
        (fun l => decide (l.2 = LKind.circle →
          l.1 ∈ (initMap defaultSession none none none none).circles)) = true :=
  c3_registry_invariant (initMap defaultSession none none none none)
    (Reachable.stepInitMap none none none none
      (Reachable.ctor (8240773/1000000) (-65546409/1000000) 7 "map" "selector-icon"))

lemma clearSelector_surface_some {s : MapState} {m : Nat} (hm : s.mapInit = true)
    (hs : s.selectorMarker = some m) :
    (clearSelector s).surface = removeLayer s.surface m := by
  unfold clearSelector
  simp [hm, hs]

/-- C9: in every reachable session state a stored selection exists exactly
when a selector marker exists (the biconditional is preserved by every
public operation), and placing a selector point twice in succession leaves
exactly one active selector marker: the second `placeSelector` removes the
first marker's layer from the surface before creating its own, whose handle
is the one stored. -/
theorem c9_selector_invariant (s : MapState) (hr : Reachable s)
    (lat1 lng1 lat2 lng2 : ℚ) (ic1 ic2 : Option String) :
    s.selectorMarker.isSome = s.selectedCoords.isSome
    ∧ ((s.mapInit && s.isSelectorEnabled) = true →
        (placeSelector (placeSelector s lat1 lng1 ic1) lat2 lng2 ic2).selectorMarker
            = some (s.nextId + 1)
        ∧ (placeSelector (placeSelector s lat1 lng1 ic1) lat2 lng2 ic2).selectedCoords
            = some (lat2, lng2)
        ∧ s.nextId ∉
            ((placeSelector (placeSelector s lat1 lng1 ic1) lat2 lng2 ic2).surface.map
              Prod.fst)
        ∧ (s.nextId + 1, LKind.marker) ∈
            (placeSelector (placeSelector s lat1 lng1 ic1) lat2 lng2 ic2).surface) := by
  refine ⟨(reachable_inv hr).selIff, ?_⟩
  intro h
  have hreq : requireSelector s = true := h
  have hand := h
  simp only [Bool.and_eq_true] at hand
  obtain ⟨hm, he⟩ := hand
  rw [placeSelector_eq lat1 lng1 ic1 hreq]
  have hreq1 : requireSelector
      { clearSelector s with
        selectedCoords := some (lat1, lng1)
        surface := (clearSelector s).surface ++ [(s.nextId, .marker)]
        nextId := s.nextId + 1
        markers := s.markers ++ [s.nextId]
        selectorMarker := some s.nextId } = true := by
    simp [requireSelector, hm, he]
  rw [placeSelector_eq lat2 lng2 ic2 hreq1]
  have hsurf : (clearSelector
      { clearSelector s with
        selectedCoords := some (lat1, lng1)
        surface := (clearSelector s).surface ++ [(s.nextId, .marker)]
        nextId := s.nextId + 1
        markers := s.markers ++ [s.nextId]
        selectorMarker := some s.nextId }).surface
      = removeLayer ((clearSelector s).surface ++ [(s.nextId, .marker)]) s.nextId :=
    clearSelector_surface_some (by simp [hm]) (by simp)
  refine ⟨by simp, by simp, ?_, ?_⟩
  · show s.nextId ∉ ((clearSelector _).surface ++ [(s.nextId + 1, LKind.marker)]).map Prod.fst
    rw [hsurf, List.map_append]
    simp only [List.mem_append, not_or]
    constructor
    · intro hcon
      rcases List.mem_map.mp hcon with ⟨l, hl, hfst⟩
      rcases List.mem_filter.mp hl with ⟨_, hne⟩
      rw [hfst] at hne
      simp at hne
    · simp
  · show (s.nextId + 1, LKind.marker) ∈
      (clearSelector _).surface ++ [(s.nextId + 1, LKind.marker)]
    simp

/-- C9 witness: instantiated at the enabled session obtained by
`initMap` → `setupSelector` on the default session, with two successive
selector placements. -/
theorem c9_selector_invariant_witness :
    (setupSelector (initMap defaultSession none none none none)).selectorMarker.isSome
      = (setupSelector (initMap defaultSession none none none none)).selectedCoords.isSome
    ∧ ((placeSelector (placeSelector
          (setupSelector (initMap defaultSession none none none none)) 10 (-66) none)
          11 (-67) none).selectorMarker
        = some ((setupSelector (initMap defaultSession none none none none)).nextId + 1)
      ∧ (placeSelector (placeSelector
          (setupSelector (initMap defaultSession none none none none)) 10 (-66) none)
          11 (-67) none).selectedCoords = some (11, -67)
      ∧ (setupSelector (initMap defaultSession none none none none)).nextId ∉
          ((placeSelector (placeSelector
            (setupSelector (initMap defaultSession none none none none)) 10 (-66) none)
            11 (-67) none).surface.map Prod.fst)
      ∧ ((setupSelector (initMap defaultSession none none none none)).nextId + 1,
          LKind.marker) ∈
          (placeSelector (placeSelector
            (setupSelector (initMap defaultSession none none none none)) 10 (-66) none)
            11 (-67) none).surface) :=
  ⟨(c9_selector_invariant (setupSelector (initMap defaultSession none none none none))
      (Reachable.stepSetupSelector (Reachable.stepInitMap none none none none
        (Reachable.ctor (8240773/1000000) (-65546409/1000000) 7 "map" "selector-icon")))
      10 (-66) 11 (-67) none none).1,
   (c9_selector_invariant (setupSelector (initMap defaultSession none none none none))
      (Reachable.stepSetupSelector (Reachable.stepInitMap none none none none
        (Reachable.ctor (8240773/1000000) (-65546409/1000000) 7 "map" "selector-icon")))
      10 (-66) 11 (-67) none none).2 (by rfl)⟩

end OSM
